import Mathlib

/-!
# Verification of the numerai-electric dashboard core (src/numerai-electric/app.py)

A shallow embedding of the Flask application's core logic: the bounded
in-memory event log (`log_event`), the request counter
(`increment_request_count` / `before_request`), the startup public-IP
resolution (`get_public_ip`, `initialize_system`), and the JSON route
handlers (`health`, `api_status`, `api_signals`, `api_logs`).

Modelling conventions:
* Python `str` is Lean `String`; Python list is Lean `List`.
* The wall clock is abstracted: each operation that reads
  `datetime.datetime.now().isoformat()` or `time.time()` takes the resulting
  value as an explicit parameter.
* Mutation of the global `SYSTEM_STATE` dict becomes explicit state passing
  over the structure `SystemState`.  The fields `trading_signals`,
  `model_predictions` and `market_data` of `SYSTEM_STATE` are written nowhere
  and read nowhere in the source after initialisation, so they are omitted.
* The two external lookups inside `get_public_ip` (the HTTP request to
  ipinfo.io, which carries `timeout=5`, and the UDP-socket trick) are
  abstracted by a `LookupResult` parameter each: `.ok text` is a completed
  call returning `text`, `.err` is any raised exception (timeout included),
  which the source catches with a bare `except:`.
* Python floats appearing only as literal constants in static payloads
  (confidences, expected returns) are embedded as rationals.
-/

/-- Python tail slice `l[-n:]` on a list.  For `n ≥ 1` it keeps the last
`n` elements (all of them when `n ≥ len(l)`); Python's `l[-0:]` is `l[0:]`,
the whole list. -/
def pyTailSlice {α : Type} (n : Nat) (l : List α) : List α :=
  if n = 0 then l else l.drop (l.length - n)

/-- The log line built by `log_event` (app.py line 66):
`log_entry = f"{timestamp} - {message}"`. -/
def mkLogEntry (timestamp message : String) : String :=
  timestamp ++ " - " ++ message

/-- `log_event` (app.py lines 63-72) acting on the `logs` list of
`SYSTEM_STATE`: append the formatted entry, then, when the length exceeds
50, keep only the last 50 entries (`SYSTEM_STATE['logs'][-50:]`).
The `logger.info` call has no effect on program state and is not modelled. -/
def log_event (timestamp message : String) (logs : List String) : List String :=
  let logs := logs ++ [mkLogEntry timestamp message]
  if logs.length > 50 then pyTailSlice 50 logs else logs

/-- The log entries that a list of `(timestamp, message)` pairs would
produce, in order of appending. -/
def entries (msgs : List (String × String)) : List String :=
  msgs.map (fun p => mkLogEntry p.1 p.2)

/-- Run a whole sequence of `log_event` appends, oldest first. -/
def appendAll (msgs : List (String × String)) (logs : List String) : List String :=
  msgs.foldl (fun acc p => log_event p.1 p.2 acc) logs

/-- The spec's `exportText()`: the body that `api_logs` builds for the
download case (app.py line 814), `'\n'.join(SYSTEM_STATE['logs'])`. -/
def exportText (logs : List String) : String :=
  String.intercalate "\n" logs

/-- Split a string at every newline character, as Python's
`text.split('\n')` does for the single-character separator. -/
def splitLines (s : String) : List String :=
  s.split (fun c => c == '\n')

/-- The spec's `recent(n)`: the n most-recently-appended entries in
insertion order, realised in the dashboard handler `index` (app.py line
535) as the tail slice `SYSTEM_STATE['logs'][-20:]`, generalised from the
literal 20 to a parameter. -/
def recent (n : Nat) (logs : List String) : List String :=
  pyTailSlice n logs

/-- Outcome of one external call inside `get_public_ip`: either the call
completed and produced a string, or it raised (connection error, timeout
from `timeout=5`, DNS failure, missing module, ...) and was caught by the
bare `except:`. -/
inductive LookupResult where
  | ok (text : String)
  | err
deriving DecidableEq

/-- `get_public_ip` (app.py lines 45-61), parameterised by the outcomes of
its two external calls.  On HTTP success it returns `response.text.strip()`;
on HTTP failure it falls back to the socket method; when that also fails it
returns `"unknown"`. -/
def get_public_ip (httpResp sockResp : LookupResult) : String :=
  match httpResp with
  | .ok text => text.trim
  | .err =>
    match sockResp with
    | .ok ip => ip
    | .err => "unknown"

/-- The `numerai_status` entry of `SYSTEM_STATE`: the initial two-field
dict (app.py line 42) or the four-field dict written by `initialize_system`
(app.py lines 849-854). -/
inductive NumeraiStatus where
  | starting (tournament model_state : String)
  | initialized (tournament : String) (round : Nat) (models_trained : Nat)
      (predictions_ready : Bool)
deriving DecidableEq

/-- The mutable parts of the global `SYSTEM_STATE` dict (app.py lines
35-43) that the source ever reads or writes after creation.
`start_time` is abstracted into the explicit uptime parameters of the
handlers. -/
structure SystemState where
  request_count : Nat
  logs : List String
  numerai_status : NumeraiStatus
deriving DecidableEq

/-- `SYSTEM_STATE` as created at module load: zero requests, empty log. -/
def initialSYSTEM_STATE : SystemState :=
  { request_count := 0
    logs := []
    numerai_status := .starting "active" "training" }

/-- The global `CONFIG` dict (app.py lines 25-32). `public_ip` starts as
`None` and is set once by `initialize_system`. -/
structure Config where
  host : String
  port : Nat
  debug : Bool
  domain : String
  public_ip : Option String
  version : String
deriving DecidableEq

/-- `CONFIG` as created at module load. -/
def initialCONFIG : Config :=
  { host := "0.0.0.0"
    port := 42857
    debug := true
    domain := "electric.lab.uprootiny.dev"
    public_ip := none
    version := "3.0-numerai-electric" }

/-- `increment_request_count` (app.py lines 74-76). -/
def increment_request_count (s : SystemState) : SystemState :=
  { s with request_count := s.request_count + 1 }

/-- `before_request` (app.py lines 518-521): Flask runs it once before
every route handler; it only increments the request counter. -/
def before_request (s : SystemState) : SystemState :=
  increment_request_count s

/-- Serve one inbound request: Flask applies `before_request` and then the
route handler, which returns the new state and the response. -/
def handleRequest {ρ : Type} (handler : SystemState → SystemState × ρ)
    (s : SystemState) : SystemState × ρ :=
  handler (before_request s)

/-- Response body of `/health` (app.py lines 544-552). -/
structure HealthResponse where
  status : String
  service : String
  version : String
  uptime_seconds : Nat
  requests_served : Nat
  mode : String
  features : List String
deriving DecidableEq

/-- Route handler `health` (app.py lines 538-552): logs
`"Health check requested"`, then returns the health payload reading the
request counter. -/
def health (cfg : Config) (now_iso : String) (uptime_seconds : Nat)
    (s : SystemState) : SystemState × HealthResponse :=
  let s := { s with logs := log_event now_iso "Health check requested" s.logs }
  (s,
   { status := "healthy"
     service := "numerai-electric"
     version := cfg.version
     uptime_seconds := uptime_seconds
     requests_served := s.request_count
     mode := "global"
     features := ["numerai-integration", "real-time-predictions",
                  "model-ensemble", "trading-signals"] })

/-- Response body of `/api/status` (app.py lines 559-582).  The static
`active_models` table is a list of (name, status, accuracy) rows. -/
structure StatusResponse where
  service : String
  status : String
  version : String
  timestamp : String
  uptime_seconds : Nat
  requests_served : Nat
  config : Config
  features : List String
  numerai_status : NumeraiStatus
  active_models : List (String × String × ℚ)
deriving DecidableEq

/-- Route handler `api_status` (app.py lines 554-582): no log append, just
the status snapshot. -/
def api_status (cfg : Config) (now_iso : String) (uptime_seconds : Nat)
    (s : SystemState) : SystemState × StatusResponse :=
  (s,
   { service := "numerai-electric"
     status := "running"
     version := cfg.version
     timestamp := now_iso
     uptime_seconds := uptime_seconds
     requests_served := s.request_count
     config := cfg
     features := ["numerai-tournament-integration", "real-time-predictions",
                  "model-ensemble", "trading-signals", "risk-management",
                  "global-access", "clojure-repl"]
     numerai_status := s.numerai_status
     active_models := [("ensemble-v1", "training", 0.68),
                       ("xgboost-v2", "ready", 0.71),
                       ("neural-net-v1", "predicting", 0.69)] })

/-- One row of the `/api/signals` payload (app.py lines 642-646). -/
structure Signal where
  symbol : String
  signal : String
  confidence : ℚ
  expected_return : ℚ
deriving DecidableEq

/-- The hardcoded `signals` list of `api_signals` (app.py lines 642-646). -/
def signals_list : List Signal :=
  [{ symbol := "BTC-USD", signal := "BUY", confidence := 0.87,
     expected_return := 0.023 },
   { symbol := "ETH-USD", signal := "HOLD", confidence := 0.65,
     expected_return := 0.005 },
   { symbol := "SOL-USD", signal := "SELL", confidence := 0.73,
     expected_return := -0.012 }]

/-- Response body of `/api/signals` (app.py lines 648-653). -/
structure SignalsResponse where
  signals : List Signal
  generated_at : String
  strategy : String
  risk_level : String
deriving DecidableEq

/-- Route handler `api_signals` (app.py lines 637-653): logs
`"Trading signals requested"` and returns the static signals payload. -/
def api_signals (now_iso : String) (s : SystemState) :
    SystemState × SignalsResponse :=
  let s := { s with logs := log_event now_iso "Trading signals requested" s.logs }
  (s,
   { signals := signals_list
     generated_at := now_iso
     strategy := "ensemble-momentum"
     risk_level := "moderate" })

/-- Response of `/api/logs` (app.py lines 807-826): either the text/plain
attachment built in the `format == 'download'` branch, or the default JSON
body `{logs, total_entries, last_updated}`. -/
inductive LogsResponse where
  | download (mimetype : String) (content_disposition : String) (body : String)
  | jsonResp (logs : List String) (total_entries : Nat) (last_updated : String)
deriving DecidableEq

/-- Route handler `api_logs` (app.py lines 807-826).  `fmt` is the raw
`format` query parameter; `request.args.get('format', 'json')` substitutes
`"json"` when it is absent. -/
def api_logs (fmt : Option String) (now_iso : String) (s : SystemState) :
    SystemState × LogsResponse :=
  let format_type := fmt.getD "json"
  if format_type = "download" then
    (s, .download "text/plain" "attachment; filename=numerai-electric-logs.txt"
          (exportText s.logs))
  else
    (s, .jsonResp s.logs s.logs.length now_iso)

/-- A stand-in for Python's `f"Configuration: {CONFIG}"` dict rendering in
`initialize_system`; the exact textual form of the dict is irrelevant to
every claim, only that some entry is appended. -/
def configRepr (c : Config) : String :=
  c.host ++ ":" ++ toString c.port ++ " " ++ c.domain ++ " " ++ c.version

/-- `initialize_system` (app.py lines 840-854): resolve the public IP into
`CONFIG`, append three startup log entries, and overwrite
`numerai_status`.  `t1 t2 t3` are the timestamps of the three appends. -/
def initialize_system (httpResp sockResp : LookupResult)
    (t1 t2 t3 : String) (cfg : Config) (s : SystemState) :
    Config × SystemState :=
  let cfg := { cfg with public_ip := some (get_public_ip httpResp sockResp) }
  let startMsg := "Numerai Electric Trading Lab starting - Version " ++ cfg.version
  let s := { s with logs := log_event t1 startMsg s.logs }
  let s := { s with logs := log_event t2 ("Configuration: " ++ configRepr cfg) s.logs }
  let s := { s with logs := log_event t3 "All systems initialized and ready" s.logs }
  let s := { s with numerai_status := .initialized "active" 456 3 true }
  (cfg, s)

/-- A concrete sequence of 60 appends with pairwise distinct timestamps and
messages, used to witness the claims about long append sequences. -/
def msgs60 : List (String × String) :=
  (List.range 60).map (fun i => ("ts" ++ Nat.repr i, "msg" ++ Nat.repr i))

/-!
## Interleaving model of the unsynchronised request counter

`SYSTEM_STATE['request_count'] += 1` (app.py line 76) is a read-modify-write
on shared state with no lock anywhere in the source, and `app.run` is called
with `threaded=True` (line 869), so two handlers may interleave between the
read and the write.  Each request's increment is modelled as two atomic
actions: `load t` reads the counter into thread `t`'s temporary, `store t`
writes back that temporary plus one.
-/

/-- One atomic step of a thread executing the `+=` of
`increment_request_count`. -/
inductive CounterAction where
  | load (tid : Nat)
  | store (tid : Nat)
deriving DecidableEq

/-- The thread a counter action belongs to. -/
def threadOf : CounterAction → Nat
  | .load t => t
  | .store t => t

/-- Shared counter plus each thread's private temporary (newest binding
first). -/
structure CounterMachine where
  count : Nat
  temps : List (Nat × Nat)
deriving DecidableEq

/-- The temporary last loaded by thread `t` (0 if it never loaded). -/
def lookupTemp (temps : List (Nat × Nat)) (t : Nat) : Nat :=
  ((temps.find? (fun p => p.1 == t)).map Prod.snd).getD 0

/-- Execute one atomic action. -/
def counterStep (m : CounterMachine) : CounterAction → CounterMachine
  | .load t => { m with temps := (t, m.count) :: m.temps }
  | .store t => { m with count := lookupTemp m.temps t + 1 }

/-- Final counter value after running a schedule from a fresh process
(counter 0). -/
def runSchedule (acts : List CounterAction) : Nat :=
  (acts.foldl counterStep { count := 0, temps := [] }).count

/-- The action sequence of one request's counter increment, executed by
thread `t`. -/
def incrementThread (t : Nat) : List CounterAction :=
  [.load t, .store t]

/-- `sched` is an interleaving of `K` concurrent requests, one per thread
`0, ..., K-1`: it has exactly the `2 * K` actions, and projecting it onto
any one thread recovers that thread's load-then-store program in order. -/
def isInterleaving (K : Nat) (sched : List CounterAction) : Prop :=
  sched.length = 2 * K ∧
  ∀ t < K, sched.filter (fun a => threadOf a == t) = incrementThread t

/-!
## Theorems

First, the characterisation of the bounded log: running `log_event` keeps
exactly the last 50 entries of the would-be unbounded log.
-/

/-- `log_event` is exactly "append, then keep the last 50" in drop form. -/
theorem log_event_eq (t m : String) (logs : List String) :
    log_event t m logs
      = (logs ++ [mkLogEntry t m]).drop ((logs ++ [mkLogEntry t m]).length - 50) := by
  simp only [log_event, pyTailSlice]
  split
  · rw [if_neg (by omega : ¬(50 = 0))]
  · rw [Nat.sub_eq_zero_of_le (by omega), List.drop_zero]

/-- The retained log never exceeds 50 entries after any append. -/
theorem log_event_length_le (t m : String) (logs : List String) :
    (log_event t m logs).length ≤ 50 := by
  rw [log_event_eq]
  simp only [List.length_drop]
  omega

/-- Keeping the last `n` of a list, appending more, and keeping the last
`n` again is the same as keeping the last `n` of the whole. -/
theorem drop_window_append {α : Type} (n : Nat) (a b : List α) :
    (a.drop (a.length - n) ++ b).drop ((a.drop (a.length - n) ++ b).length - n)
      = (a ++ b).drop ((a ++ b).length - n) := by
  rcases Nat.le_total a.length n with h | h
  · rw [Nat.sub_eq_zero_of_le h, List.drop_zero]
  · rw [← List.drop_append_of_le_length (Nat.sub_le a.length n), List.drop_drop]
    congr 1
    simp only [List.length_drop, List.length_append]
    omega

/-- A whole append sequence from a state within capacity keeps exactly the
last 50 of the would-be unbounded log. -/
theorem appendAll_eq (msgs : List (String × String)) :
    ∀ logs : List String, logs.length ≤ 50 →
      appendAll msgs logs
        = (logs ++ entries msgs).drop ((logs ++ entries msgs).length - 50) := by
  induction msgs with
  | nil =>
    intro logs h
    simp only [appendAll, List.foldl_nil, entries, List.map_nil, List.append_nil]
    rw [Nat.sub_eq_zero_of_le h, List.drop_zero]
  | cons p rest ih =>
    intro logs _
    show appendAll rest (log_event p.1 p.2 logs)
      = (logs ++ entries (p :: rest)).drop ((logs ++ entries (p :: rest)).length - 50)
    rw [ih (log_event p.1 p.2 logs) (log_event_length_le p.1 p.2 logs),
        log_event_eq, drop_window_append]
    have hassoc : (logs ++ [mkLogEntry p.1 p.2]) ++ entries rest
        = logs ++ entries (p :: rest) := by
      simp [entries, List.append_assoc]
    rw [hassoc]

/-- Claim C1: for every sequence of more than 50 appends from a fresh log,
the retained log is exactly the last 50 appended messages in order of
appending, oldest first; its length is 50; the length never exceeds 50
after any prefix of the appends; and after exactly 60 appends the first
retained entry is the one built from the 11th appended message (index 10). -/
theorem claim_C1_bounded_retention (msgs : List (String × String))
    (h : 50 < msgs.length) :
    appendAll msgs [] = (entries msgs).drop (msgs.length - 50)
    ∧ (appendAll msgs []).length = 50
    ∧ (∀ k : Nat, (appendAll (msgs.take k) []).length ≤ 50)
    ∧ (msgs.length = 60 → (appendAll msgs []).head? = (entries msgs)[10]?) := by
  have hlen : (entries msgs).length = msgs.length := by simp [entries]
  have h0 : appendAll msgs [] = (entries msgs).drop (msgs.length - 50) := by
    have h1 := appendAll_eq msgs [] (by simp)
    simpa [hlen] using h1
  refine ⟨h0, ?_, ?_, ?_⟩
  · rw [h0]
    simp only [List.length_drop, hlen]
    omega
  · intro k
    rw [appendAll_eq (msgs.take k) [] (by simp)]
    simp only [List.length_drop]
    omega
  · intro h60
    rw [h0, h60]
    norm_num

/-!
## The export text and its line structure (spec `exportText`)
-/

/-- Character-level content of `String.intercalate.go`. -/
theorem intercalate_go_data (sep : String) (as : List String) (acc : String) :
    (String.intercalate.go acc sep as).data
      = acc.data ++ (as.map (fun a => sep.data ++ a.data)).flatten := by
  induction as generalizing acc with
  | nil => simp [String.intercalate.go]
  | cons a as ih => simp [String.intercalate.go, ih]

/-- `List.intercalate` on a cons, flattened form. -/
theorem intercalate_cons_flatten {α : Type} (sep : List α) (x : List α)
    (l : List (List α)) :
    List.intercalate sep (x :: l) = x ++ (l.map (fun y => sep ++ y)).flatten := by
  induction l generalizing x with
  | nil => simp [List.intercalate]
  | cons y l ih =>
    simp only [List.intercalate, List.intersperse_cons_cons, List.flatten_cons] at ih ⊢
    simp [ih, List.append_assoc]

/-- Character-level content of `String.intercalate`. -/
theorem data_intercalate (sep : String) (l : List String) :
    (String.intercalate sep l).data
      = List.intercalate sep.data (l.map String.data) := by
  cases l with
  | nil => simp [String.intercalate, List.intercalate]
  | cons a as =>
    show (String.intercalate.go a sep as).data = _
    rw [intercalate_go_data, List.map_cons, intercalate_cons_flatten]
    simp [List.map_map, Function.comp_def]

/-- Rebuilding a string from its characters is the identity. -/
theorem mk_data_eq (s : String) : String.mk s.data = s := rfl

/-- Splitting the newline-joined export recovers the entry list, provided
the log is nonempty and no entry contains a newline character. -/
theorem splitLines_exportText (logs : List String) (h1 : logs ≠ [])
    (h2 : ∀ e ∈ logs, '\n' ∉ e.data) :
    splitLines (exportText logs) = logs := by
  unfold splitLines exportText
  rw [String.split_of_valid]
  have hd : (String.intercalate "\n" logs).data
      = List.intercalate ['\n'] (logs.map String.data) := by
    rw [data_intercalate]
  rw [show (String.intercalate "\n" logs).1
        = (String.intercalate "\n" logs).data from rfl, hd]
  have hsplit : List.splitOnP (fun c => c == '\n')
        (List.intercalate ['\n'] (logs.map String.data))
      = (List.intercalate ['\n'] (logs.map String.data)).splitOn '\n' := rfl
  rw [hsplit, List.splitOn_intercalate (logs.map String.data) '\n' ?hx ?hls]
  · rw [List.map_map]
    simp [Function.comp_def, mk_data_eq]
  case hx =>
    intro l hl
    rcases List.mem_map.mp hl with ⟨e, he, rfl⟩
    exact h2 e he
  case hls =>
    simpa using h1

/-- Witness for claim C1 at the concrete 60-append sequence `msgs60`: the
hypothesis `50 < length` holds, the retained log is the last 50 entries,
has length 50, and starts with the entry built from the 11th append. -/
theorem claim_C1_bounded_retention_witness :
    50 < msgs60.length
    ∧ appendAll msgs60 [] = (entries msgs60).drop (msgs60.length - 50)
    ∧ (appendAll msgs60 []).length = 50
    ∧ (appendAll msgs60 []).head? = (entries msgs60)[10]? :=
  ⟨by decide,
   (claim_C1_bounded_retention msgs60 (by decide)).1,
   (claim_C1_bounded_retention msgs60 (by decide)).2.1,
   (claim_C1_bounded_retention msgs60 (by decide)).2.2.2 (by decide)⟩

/-- Counterexample to claim C3 as stated: appending the single message
`"a\nb"`, whose text contains a newline, yields a one-entry log whose
export splits into two lines, not one.  (The empty log also violates the
claim: its export is `""`, which splits into one line, not zero.) -/
theorem claim_C3_counterexample :
    (splitLines (exportText (appendAll [("t", "a\nb")] []))).length
      ≠ (appendAll [("t", "a\nb")] []).length := by
  have h : appendAll [("t", "a\nb")] [] = ["t - a\nb"] := by decide
  have h2 : splitLines (exportText ["t - a\nb"]) = ["t - a", "b"] := by
    unfold splitLines exportText
    rw [String.split_of_valid]
    decide
  rw [h, h2]
  decide

/-- Claim C3 (amended): for every nonempty sequence of appends in which no
timestamp and no message contains a newline character, splitting the
exported log text on newlines yields exactly the retained entries — as
many lines as entries, each line being `"<timestamp> - <message>"` for the
corresponding retained entry, oldest first. -/
theorem claim_C3_export_lines (msgs : List (String × String)) (h1 : msgs ≠ [])
    (h2 : ∀ p ∈ msgs, '\n' ∉ p.1.data ∧ '\n' ∉ p.2.data) :
    splitLines (exportText (appendAll msgs [])) = appendAll msgs []
    ∧ (splitLines (exportText (appendAll msgs []))).length
        = (appendAll msgs []).length
    ∧ appendAll msgs [] = (entries msgs).drop ((entries msgs).length - 50) := by
  have h3 : appendAll msgs []
      = (entries msgs).drop ((entries msgs).length - 50) := by
    have h4 := appendAll_eq msgs [] (by simp)
    simpa using h4
  have hlenpos : 0 < (appendAll msgs []).length := by
    rw [h3]
    simp only [List.length_drop, entries, List.length_map]
    have : 0 < msgs.length := List.length_pos.mpr h1
    omega
  have hne : appendAll msgs [] ≠ [] := List.ne_nil_of_length_pos hlenpos
  have hnl : ∀ e ∈ appendAll msgs [], '\n' ∉ e.data := by
    intro e he
    rw [h3] at he
    rcases List.mem_map.mp (List.mem_of_mem_drop he) with ⟨p, hp, rfl⟩
    rcases h2 p hp with ⟨hpt, hpm⟩
    intro hmem
    simp only [mkLogEntry, String.data_append, List.mem_append] at hmem
    rcases hmem with (h | h) | h
    · exact hpt h
    · exact absurd h (by decide)
    · exact hpm h
  have hmain := splitLines_exportText (appendAll msgs []) hne hnl
  exact ⟨hmain, by rw [hmain], h3⟩

/-- Witness for the amended claim C3 at the concrete newline-free append
sequence `[("t1", "boot"), ("t2", "ready")]`. -/
theorem claim_C3_export_lines_witness :
    ([("t1", "boot"), ("t2", "ready")] : List (String × String)) ≠ []
    ∧ splitLines (exportText (appendAll [("t1", "boot"), ("t2", "ready")] []))
        = appendAll [("t1", "boot"), ("t2", "ready")] []
    ∧ (splitLines (exportText (appendAll [("t1", "boot"), ("t2", "ready")] []))).length
        = (appendAll [("t1", "boot"), ("t2", "ready")] []).length :=
  ⟨by decide,
   (claim_C3_export_lines [("t1", "boot"), ("t2", "ready")] (by decide)
      (by decide)).1,
   (claim_C3_export_lines [("t1", "boot"), ("t2", "ready")] (by decide)
      (by decide)).2.1⟩

/-- Claim C2: for every log state and every value of the `format` query
parameter, `api_logs` returns the text/plain export when the parameter
equals `"download"`, and the default JSON body `{logs, total_entries,
last_updated}` for every other value, the absent parameter included; the
handler is total, so no error response exists. -/
theorem claim_C2_logs_format (fmt : Option String) (now : String)
    (s : SystemState) :
    (fmt = some "download" →
      (api_logs fmt now s).2
        = .download "text/plain" "attachment; filename=numerai-electric-logs.txt"
            (exportText s.logs))
    ∧ (fmt ≠ some "download" →
      (api_logs fmt now s).2 = .jsonResp s.logs s.logs.length now) := by
  constructor
  · rintro rfl
    rfl
  · intro hne
    have hgd : ¬(fmt.getD "json" = "download") := by
      cases fmt with
      | none => decide
      | some v =>
        simp only [Option.getD]
        intro h
        exact hne (by rw [h])
    simp only [api_logs, if_neg hgd]

/-- Witness for claim C2: the download branch at `format=download`, and the
default JSON branch both at an unexpected value and at an absent
parameter. -/
theorem claim_C2_logs_format_witness :
    (api_logs (some "download") "now" initialSYSTEM_STATE).2
      = .download "text/plain" "attachment; filename=numerai-electric-logs.txt"
          (exportText initialSYSTEM_STATE.logs)
    ∧ (api_logs (some "html") "now" initialSYSTEM_STATE).2
      = .jsonResp initialSYSTEM_STATE.logs initialSYSTEM_STATE.logs.length "now"
    ∧ (api_logs none "now" initialSYSTEM_STATE).2
      = .jsonResp initialSYSTEM_STATE.logs initialSYSTEM_STATE.logs.length "now" :=
  ⟨(claim_C2_logs_format (some "download") "now" initialSYSTEM_STATE).1 rfl,
   (claim_C2_logs_format (some "html") "now" initialSYSTEM_STATE).2 (by decide),
   (claim_C2_logs_format none "now" initialSYSTEM_STATE).2 (by decide)⟩

/-- Claim C4: the `recent n` tail slice for `n` at least the current log
length returns the whole retained log, oldest first. -/
theorem claim_C4_recent_all (n : Nat) (logs : List String)
    (h : logs.length ≤ n) :
    recent n logs = logs := by
  unfold recent pyTailSlice
  split
  · rfl
  · rw [Nat.sub_eq_zero_of_le h, List.drop_zero]

/-- Witness for claim C4 at `n = 5` on a two-entry log. -/
theorem claim_C4_recent_all_witness :
    (["a", "b"] : List String).length ≤ 5 ∧ recent 5 ["a", "b"] = ["a", "b"] :=
  ⟨by decide, claim_C4_recent_all 5 ["a", "b"] (by decide)⟩

/-- Claim C5: from a fresh process (request count zero), serving `/health`
and then `/api/status` yields `requests_served = 2` in the second response:
the counter is incremented exactly once per request by `before_request`. -/
theorem claim_C5_two_requests (cfg : Config) (t1 t2 : String) (u1 u2 : Nat)
    (logs0 : List String) (ns : NumeraiStatus) :
    ((handleRequest (api_status cfg t2 u2)
        (handleRequest (health cfg t1 u1)
          { request_count := 0, logs := logs0, numerai_status := ns }).1).2).requests_served
      = 2 :=
  rfl

/-- Claim C6: every `/api/signals` response holds exactly 3 signal entries
and each entry's `signal` field is `BUY`, `SELL` or `HOLD`. -/
theorem claim_C6_signals (t : String) (s : SystemState) :
    ((handleRequest (api_signals t) s).2).signals.length = 3
    ∧ ((handleRequest (api_signals t) s).2).signals.all
        (fun x => x.signal == "BUY" || x.signal == "SELL" || x.signal == "HOLD")
      = true :=
  ⟨rfl, rfl⟩

/-- Claim C7: the startup public-IP resolution always completes with some
string — its HTTP call carries `timeout=5` and every raised exception is an
`.err` outcome here — the total-failure fallback value is `"unknown"`, and
whatever the lookup outcome, a request served afterwards gets the normal
response: the failure is never surfaced and never prevents serving. -/
theorem claim_C7_ip_failure_recovery (hr sr : LookupResult)
    (t1 t2 t3 now : String) (u : Nat) :
    (initialize_system hr sr t1 t2 t3 initialCONFIG initialSYSTEM_STATE).1.public_ip
        = some (get_public_ip hr sr)
    ∧ get_public_ip .err .err = "unknown"
    ∧ ((handleRequest
          (health (initialize_system hr sr t1 t2 t3 initialCONFIG initialSYSTEM_STATE).1
            now u)
          (initialize_system hr sr t1 t2 t3 initialCONFIG initialSYSTEM_STATE).2).2).status
        = "healthy" :=
  ⟨rfl, rfl, rfl⟩

/-- Claim C9: `get_public_ip` is total by construction; under lookup
outcomes whose success values are genuine addresses (never the literal
`"unknown"`), it returns `"unknown"` exactly when both the HTTP lookup and
the socket fallback fail, and when only the HTTP lookup fails it returns
the socket address; on HTTP success it returns the stripped response
body. -/
theorem claim_C9_ip_fallback_chain (hr sr : LookupResult)
    (hh : ∀ v, hr = .ok v → v.trim ≠ "unknown")
    (hs : ∀ v, sr = .ok v → v ≠ "unknown") :
    (get_public_ip hr sr = "unknown" ↔ hr = .err ∧ sr = .err)
    ∧ (∀ ip, hr = .err → sr = .ok ip → get_public_ip hr sr = ip)
    ∧ (∀ v, hr = .ok v → get_public_ip hr sr = v.trim) := by
  cases hr with
  | ok v => simp_all [get_public_ip]
  | err =>
    cases sr with
    | ok ip => simp_all [get_public_ip]
    | err => simp [get_public_ip]

/-- Witness for claim C9: the HTTP lookup fails, the socket fallback
returns a local address, and `get_public_ip` returns that address. -/
theorem claim_C9_ip_fallback_chain_witness :
    get_public_ip .err (.ok "10.0.0.1") = "10.0.0.1" :=
  (claim_C9_ip_fallback_chain .err (.ok "10.0.0.1")
      (fun _ h => nomatch h)
      (fun v h => by cases h; decide)).2.1 "10.0.0.1" rfl rfl

/-- Claim C10: in every JSON response of `api_logs`, `total_entries`
equals the length of the `logs` array of the same response. -/
theorem claim_C10_total_entries (fmt : Option String) (now : String)
    (s : SystemState) (ls : List String) (te : Nat) (lu : String)
    (h : (api_logs fmt now s).2 = .jsonResp ls te lu) :
    te = ls.length := by
  simp only [api_logs] at h
  split at h
  · simp at h
  · simp only [LogsResponse.jsonResp.injEq] at h
    obtain ⟨h1, h2, -⟩ := h
    subst h1
    subst h2
    rfl

/-- Witness for claim C10: the JSON response on a two-entry log reports
`total_entries = 2`, the length of its `logs` array. -/
theorem claim_C10_total_entries_witness :
    (api_logs none "now"
        { request_count := 0, logs := ["x", "y"],
          numerai_status := .starting "active" "training" }).2
      = .jsonResp ["x", "y"] 2 "now"
    ∧ (2 : Nat) = (["x", "y"] : List String).length :=
  ⟨by decide,
   claim_C10_total_entries none "now"
     { request_count := 0, logs := ["x", "y"],
       numerai_status := .starting "active" "training" }
     ["x", "y"] 2 "now" (by decide)⟩

/-- Claim C8 (refuted by the code): the source increments
`SYSTEM_STATE['request_count']` with a bare `+=` and no lock while serving
threaded requests, so an interleaving of two concurrent requests can lose
an update: the schedule load-load-store-store is a valid interleaving of
two requests yet leaves the counter at 1, not 2; the same two increments
run without overlap give 2. -/
theorem claim_C8_lost_update :
    isInterleaving 2 [.load 0, .load 1, .store 0, .store 1]
    ∧ runSchedule [.load 0, .load 1, .store 0, .store 1] = 1
    ∧ runSchedule (incrementThread 0 ++ incrementThread 1) = 2 := by
  refine ⟨⟨by decide, by decide⟩, by decide, by decide⟩
